import Mathlib

/-!
Verification of the distributed git-ref mutex of `src/git-mutex.js`
(class `GitMutex`): a shallow embedding of `acquireLock`, `releaseLock`
and `checkAndCleanExpiredLock`, followed by theorems settling the
specified properties.

Modelling conventions:
- A thrown JavaScript error object is `JsError`, carrying the optional
  numeric `status` field the code inspects and the `message` string.
- Each octokit REST call is resolved by an environment record supplying
  its outcome (`Except JsError _`), one record per call site; timestamps
  (`Date.now()` readings, parsed commit author dates) are integers
  (epoch milliseconds) supplied by the same environments.
- The retry loop of `acquireLock` consumes one `IterEnv` per iteration;
  the list of environments doubles as fuel, and an exhausted list yields
  `none` (the loop would have continued but the oracle ended).
- Every store call made is recorded as an `Event` so that theorems can
  speak about which calls were or were not performed, and about sleeps.
-/

namespace GitMutexSpec

deriving instance DecidableEq for Except

/-- A JavaScript error as the code observes it: an optional numeric
HTTP status (absent for e.g. plain network errors) and a message. -/
structure JsError where
  status : Option Nat
  message : String
deriving DecidableEq, Repr

/-- Outcome of one octokit REST call: normal resolution or a thrown error. -/
abbrev ApiResult (α : Type) := Except JsError α

/-- The `lockData` payload built in the `GitMutex` constructor:
`{ workflow: GITHUB_RUN_ID, job: GITHUB_JOB, timestamp: Date.now(), sha: GITHUB_SHA }`. -/
structure LockData where
  workflow : String
  job : String
  timestamp : Int
  sha : String
deriving DecidableEq, Repr

/-- Client-local state of a `GitMutex` instance: constructor fields plus
the `acquired` flag. -/
structure GitMutex where
  owner : String
  repo : String
  lockKey : String
  lockRef : String
  lockData : LockData
  acquired : Bool
deriving DecidableEq, Repr

/-- The `GitMutex` constructor: `lockRef` is derived from the key as
`mutex/<key>`, `lockData` is filled from the environment variables
(each defaulting to `"unknown"` when unset) and the current time, and
`acquired` starts `false`. -/
def GitMutex.init (owner repo lockKey : String)
    (envRunId envJob envSha : Option String) (now : Int) : GitMutex :=
  { owner := owner
    repo := repo
    lockKey := lockKey
    lockRef := "mutex/" ++ lockKey
    lockData :=
      { workflow := envRunId.getD "unknown"
        job := envJob.getD "unknown"
        timestamp := now
        sha := envSha.getD "unknown" }
    acquired := false }

/-- One store interaction or sleep performed by the client, with the
exact parameters the code passes to octokit. -/
inductive Event where
  | createRef (owner repo ref sha : String)
  | getRef (owner repo ref : String)
  | getCommit (owner repo commitSha : String)
  | deleteRef (owner repo ref : String)
  | sleep (ms : Int)
deriving DecidableEq, Repr

/-- The part of a `getRef` response the code reads: `ref.object.sha`. -/
structure RefData where
  objectSha : String
deriving DecidableEq, Repr

/-- Oracle for one invocation of `checkAndCleanExpiredLock`: outcomes of
the `getRef`, `getCommit` and `deleteRef` calls, and the `Date.now()`
reading taken between `getCommit` and the age comparison.
`getCommitResult` carries `new Date(commit.author.date).getTime()`, the
commit author date of the store record as an epoch-millisecond value. -/
structure CleanEnv where
  getRefResult : ApiResult RefData
  getCommitResult : ApiResult Int
  now : Int
  deleteRefResult : ApiResult Unit
deriving DecidableEq, Repr

/-- Embedding of `checkAndCleanExpiredLock`. Returns the boolean result
(`true` when the lock was cleaned up or absent) together with the list
of store calls made. The try/catch of the source swallows every error:
a 404 yields `true`, anything else falls through to `return false`, so
the embedded function is total and never propagates an error. -/
def checkAndCleanExpiredLock (m : GitMutex) (env : CleanEnv) :
    Bool × List Event :=
  match env.getRefResult with
  | .error e =>
    if e.status = some 404 then
      (true, [.getRef m.owner m.repo m.lockRef])
    else
      (false, [.getRef m.owner m.repo m.lockRef])
  | .ok ref =>
    match env.getCommitResult with
    | .error e =>
      if e.status = some 404 then
        (true, [.getRef m.owner m.repo m.lockRef,
                .getCommit m.owner m.repo ref.objectSha])
      else
        (false, [.getRef m.owner m.repo m.lockRef,
                 .getCommit m.owner m.repo ref.objectSha])
    | .ok commitTime =>
      let lockAge := env.now - commitTime
      if lockAge > 600000 then
        match env.deleteRefResult with
        | .ok _ =>
          (true, [.getRef m.owner m.repo m.lockRef,
                  .getCommit m.owner m.repo ref.objectSha,
                  .deleteRef m.owner m.repo m.lockRef])
        | .error e =>
          if e.status = some 404 then
            (true, [.getRef m.owner m.repo m.lockRef,
                    .getCommit m.owner m.repo ref.objectSha,
                    .deleteRef m.owner m.repo m.lockRef])
          else
            (false, [.getRef m.owner m.repo m.lockRef,
                     .getCommit m.owner m.repo ref.objectSha,
                     .deleteRef m.owner m.repo m.lockRef])
      else
        (false, [.getRef m.owner m.repo m.lockRef,
                 .getCommit m.owner m.repo ref.objectSha])

/-- Oracle for one iteration of the `acquireLock` loop: the `Date.now()`
reading at the `while` condition, the outcome of the `createRef`
attempt, and (consulted only after a 422 conflict) the oracle for the
nested `checkAndCleanExpiredLock` call. -/
structure IterEnv where
  loopTime : Int
  createResult : ApiResult Unit
  cleanEnv : CleanEnv
deriving DecidableEq, Repr

/-- Outcome of an `acquireLock` run: the returned boolean or the thrown
error, the final value of the `acquired` flag, and the trace of store
calls and sleeps. -/
structure AcquireRes where
  result : Except JsError Bool
  acquired : Bool
  events : List Event
deriving DecidableEq, Repr

/-- Prepends the events of an iteration onto the outcome of the rest of
the loop. -/
def prependEvents (evs : List Event) : Option AcquireRes → Option AcquireRes
  | none => none
  | some r => some { r with events := evs ++ r.events }

/-- Default `timeoutMs` of `acquireLock` (5 minutes). -/
def defaultTimeoutMs : Int := 300000

/-- Default `retryIntervalMs` of `acquireLock` (3 seconds). -/
def defaultRetryIntervalMs : Int := 3000

/-- Embedding of the `acquireLock` retry loop, one `IterEnv` per
iteration. Mirrors the source: while `Date.now() - startTime <
timeoutMs`, attempt `createRef` with the sha from `lockData`; on
success set `acquired` and return `true`; on a 422 conflict run
`checkAndCleanExpiredLock` and either continue immediately (cleaned) or
sleep `retryIntervalMs` and re-loop; on any other error rethrow the
error unchanged. When the `while` condition fails, return `false`. -/
def acquireLockLoop (m : GitMutex) (startTime timeoutMs retryIntervalMs : Int) :
    List IterEnv → Option AcquireRes
  | [] => none
  | it :: rest =>
    if it.loopTime - startTime < timeoutMs then
      let createEv := Event.createRef m.owner m.repo
        ("refs/" ++ m.lockRef) m.lockData.sha
      match it.createResult with
      | .ok _ =>
        some { result := .ok true, acquired := true, events := [createEv] }
      | .error e =>
        if e.status = some 422 then
          let cr := checkAndCleanExpiredLock m it.cleanEnv
          if cr.1 then
            prependEvents (createEv :: cr.2)
              (acquireLockLoop m startTime timeoutMs retryIntervalMs rest)
          else
            prependEvents (createEv :: cr.2 ++ [.sleep retryIntervalMs])
              (acquireLockLoop m startTime timeoutMs retryIntervalMs rest)
        else
          some { result := .error e, acquired := m.acquired,
                 events := [createEv] }
    else
      some { result := .ok false, acquired := m.acquired, events := [] }

/-- Oracle for one invocation of `releaseLock`: the outcome of its
`deleteRef` call. -/
structure ReleaseEnv where
  deleteRefResult : ApiResult Unit
deriving DecidableEq, Repr

/-- Embedding of `releaseLock`. Returns the updated client state and the
store calls made, inside `Except` to record whether an error escapes
the function: it never does, because the source catches every delete
error (422 clears the flag like success, anything else is only logged
and leaves the state untouched), so every branch is `.ok`. Not-acquired
handles return at once without any store call. -/
def releaseLock (m : GitMutex) (env : ReleaseEnv) :
    Except JsError (GitMutex × List Event) :=
  if !m.acquired then
    .ok (m, [])
  else
    let delEv := Event.deleteRef m.owner m.repo m.lockRef
    match env.deleteRefResult with
    | .ok _ => .ok ({ m with acquired := false }, [delEv])
    | .error e =>
      if e.status = some 422 then
        .ok ({ m with acquired := false }, [delEv])
      else
        .ok (m, [delEv])

/-- Recognizes a sleep event. -/
def isSleepEvent : Event → Bool
  | .sleep _ => true
  | _ => false

/-- Recognizes a delete event. -/
def isDeleteEvent : Event → Bool
  | .deleteRef _ _ _ => true
  | _ => false

/-- Holds of a loop iteration whose create attempt hits a 422 conflict
and whose expiry check reads the record back successfully and finds it
not yet expired. -/
def isBusyNotExpired (it : IterEnv) : Bool :=
  (match it.createResult with
   | .error e => decide (e.status = some 422)
   | .ok _ => false) &&
  (match it.cleanEnv.getRefResult with
   | .ok _ => true
   | .error _ => false) &&
  (match it.cleanEnv.getCommitResult with
   | .ok ct => decide (it.cleanEnv.now - ct ≤ 600000)
   | .error _ => false)

/-- Sample client state used by the concrete witnesses: corresponds to
constructing `GitMutex` with owner `octo`, repo `repo`, key `deploy` in
an environment where `GITHUB_SHA` is `abc123`. -/
def sampleMutex : GitMutex :=
  GitMutex.init "octo" "repo" "deploy" (some "run42") (some "build") (some "abc123") 1000

/-- Sample oracle in which the stored record is 700000 ms old (expired
with respect to the 600000 ms TTL) and every store call succeeds. -/
def expiredEnv : CleanEnv :=
  { getRefResult := .ok ⟨"oldsha"⟩
    getCommitResult := .ok 0
    now := 700000
    deleteRefResult := .ok () }

/-- Sample oracle in which the stored record is 60000 ms old (not
expired) and every store call succeeds. -/
def freshEnv : CleanEnv :=
  { getRefResult := .ok ⟨"cursha"⟩
    getCommitResult := .ok 0
    now := 60000
    deleteRefResult := .ok () }

/-- Sample oracle in which the read performed for the expiry check
fails with an authorization error (HTTP 403). -/
def authFailEnv : CleanEnv :=
  { getRefResult := .error ⟨some 403, "Resource not accessible"⟩
    getCommitResult := .ok 0
    now := 0
    deleteRefResult := .ok () }

/-- Sample loop iteration: create conflicts (422) and the expiry-check
read fails with a 403 authorization error. -/
def busyAuthIter : IterEnv :=
  { loopTime := 0
    createResult := .error ⟨some 422, "Reference already exists"⟩
    cleanEnv := authFailEnv }

/-- Sample loop iteration: create conflicts (422) against an expired
record. -/
def busyExpiredIter : IterEnv :=
  { loopTime := 0
    createResult := .error ⟨some 422, "Reference already exists"⟩
    cleanEnv := expiredEnv }

/-- Sample loop iteration: create conflicts (422) against a fresh
record. -/
def busyFreshIter : IterEnv :=
  { loopTime := 0
    createResult := .error ⟨some 422, "Reference already exists"⟩
    cleanEnv := freshEnv }

/-- Sample loop iteration: the create succeeds. -/
def okIter : IterEnv :=
  { loopTime := 100
    createResult := .ok ()
    cleanEnv := freshEnv }

/-! Step lemmas describing one iteration of the `acquireLock` loop. -/

/-- If the create attempt conflicts (422) and the expiry check cleans
the record (read back successfully, judged expired, delete succeeds),
the loop records the four store calls and continues at once with no
sleep event. -/
theorem acquireLockLoop_expired_step (m : GitMutex) (start t r : Int)
    (it : IterEnv) (rest : List IterEnv) (e : JsError) (ref : RefData) (ct : Int)
    (hloop : it.loopTime - start < t)
    (hcr : it.createResult = .error e) (h422 : e.status = some 422)
    (hgr : it.cleanEnv.getRefResult = .ok ref)
    (hgc : it.cleanEnv.getCommitResult = .ok ct)
    (hexp : it.cleanEnv.now - ct > 600000)
    (hdel : it.cleanEnv.deleteRefResult = .ok ()) :
    acquireLockLoop m start t r (it :: rest) =
      prependEvents
        [Event.createRef m.owner m.repo ("refs/" ++ m.lockRef) m.lockData.sha,
         Event.getRef m.owner m.repo m.lockRef,
         Event.getCommit m.owner m.repo ref.objectSha,
         Event.deleteRef m.owner m.repo m.lockRef]
        (acquireLockLoop m start t r rest) := by
  have hclean : checkAndCleanExpiredLock m it.cleanEnv =
      (true, [Event.getRef m.owner m.repo m.lockRef,
              Event.getCommit m.owner m.repo ref.objectSha,
              Event.deleteRef m.owner m.repo m.lockRef]) := by
    unfold checkAndCleanExpiredLock
    rw [hgr, hgc, hdel]
    simp [hexp]
  simp [acquireLockLoop, hloop, hcr, h422, hclean]

/-- If the create attempt conflicts (422) and the expiry check reads
the record back successfully but finds it not expired, the loop records
the three store calls plus a sleep of `retryIntervalMs` and then
re-loops. -/
theorem acquireLockLoop_busy_step (m : GitMutex) (start t r : Int)
    (it : IterEnv) (rest : List IterEnv) (e : JsError) (ref : RefData) (ct : Int)
    (hloop : it.loopTime - start < t)
    (hcr : it.createResult = .error e) (h422 : e.status = some 422)
    (hgr : it.cleanEnv.getRefResult = .ok ref)
    (hgc : it.cleanEnv.getCommitResult = .ok ct)
    (hexp : ¬ it.cleanEnv.now - ct > 600000) :
    acquireLockLoop m start t r (it :: rest) =
      prependEvents
        [Event.createRef m.owner m.repo ("refs/" ++ m.lockRef) m.lockData.sha,
         Event.getRef m.owner m.repo m.lockRef,
         Event.getCommit m.owner m.repo ref.objectSha,
         Event.sleep r]
        (acquireLockLoop m start t r rest) := by
  have hclean : checkAndCleanExpiredLock m it.cleanEnv =
      (false, [Event.getRef m.owner m.repo m.lockRef,
               Event.getCommit m.owner m.repo ref.objectSha]) := by
    unfold checkAndCleanExpiredLock
    rw [hgr, hgc]
    simp [hexp]
  simp [acquireLockLoop, hloop, hcr, h422, hclean]

/-- C2: for an existing lock record whose metadata is read back
successfully (and whose eventual delete succeeds), the expiry check
judges the record expired — returns `true`, having cleaned it — if and
only if `now` minus the creation timestamp read back from the store
(the commit author date) is strictly greater than the 600000 ms TTL;
moreover the verdict is unchanged under an arbitrary replacement of the
client-local `lockData` payload, so only the store-side timestamp is
consulted. -/
theorem C2_expiry_iff_age_gt_ttl (m : GitMutex) (env : CleanEnv)
    (ref : RefData) (ct : Int) (ld : LockData)
    (hgr : env.getRefResult = .ok ref)
    (hgc : env.getCommitResult = .ok ct)
    (hdel : env.deleteRefResult = .ok ()) :
    ((checkAndCleanExpiredLock m env).1 = true ↔ env.now - ct > 600000) ∧
    (checkAndCleanExpiredLock { m with lockData := ld } env).1 =
      (checkAndCleanExpiredLock m env).1 := by
  constructor
  · unfold checkAndCleanExpiredLock
    rw [hgr, hgc, hdel]
    by_cases h : env.now - ct > 600000 <;> simp [h]
  · rfl

/-- C2 witness: a record 700000 ms old is judged expired, and the
verdict ignores a client payload claiming a fresh timestamp. -/
theorem C2_expiry_iff_age_gt_ttl_witness :
    ((checkAndCleanExpiredLock sampleMutex expiredEnv).1 = true ↔
      expiredEnv.now - 0 > 600000) ∧
    (checkAndCleanExpiredLock
        { sampleMutex with
            lockData := { workflow := "x", job := "y",
                          timestamp := 700000, sha := "zzz" } } expiredEnv).1 =
      (checkAndCleanExpiredLock sampleMutex expiredEnv).1 :=
  C2_expiry_iff_age_gt_ttl sampleMutex expiredEnv ⟨"oldsha"⟩ 0
    { workflow := "x", job := "y", timestamp := 700000, sha := "zzz" }
    rfl rfl rfl

/-- C6: once the elapsed time reaches `timeoutMs`, the loop returns the
normal boolean `false` (not a thrown error) with the `acquired` flag
unchanged; the default parameters of `acquireLock` are 300000 ms and
3000 ms. -/
theorem C6_timeout_returns_false (m : GitMutex) (start t r : Int)
    (it : IterEnv) (rest : List IterEnv)
    (h : ¬ it.loopTime - start < t) :
    acquireLockLoop m start t r (it :: rest) =
      some { result := .ok false, acquired := m.acquired, events := [] } ∧
    defaultTimeoutMs = 300000 ∧ defaultRetryIntervalMs = 3000 := by
  refine ⟨?_, rfl, rfl⟩
  simp [acquireLockLoop, h]

/-- C6 witness: with the default timeout, a loop check at 400000 ms
after start returns `false` normally. -/
theorem C6_timeout_returns_false_witness :
    acquireLockLoop sampleMutex 0 defaultTimeoutMs defaultRetryIntervalMs
        [{ loopTime := 400000
           createResult := .error ⟨some 422, "Reference already exists"⟩
           cleanEnv := freshEnv }] =
      some { result := .ok false, acquired := sampleMutex.acquired,
             events := [] } ∧
    defaultTimeoutMs = 300000 ∧ defaultRetryIntervalMs = 3000 :=
  C6_timeout_returns_false sampleMutex 0 defaultTimeoutMs defaultRetryIntervalMs
    { loopTime := 400000
      createResult := .error ⟨some 422, "Reference already exists"⟩
      cleanEnv := freshEnv }
    [] (by decide)

/-- C7: `releaseLock` never throws — every run resolves to `.ok`; a 422
("not found") delete error is treated as success and clears the
`acquired` flag; any other delete error is swallowed (only logged) and
not propagated, the function still resolving normally. -/
theorem C7_release_never_throws :
    (∀ (m : GitMutex) (env : ReleaseEnv), (releaseLock m env).isOk = true) ∧
    (∀ (m : GitMutex) (env : ReleaseEnv) (e : JsError),
      m.acquired = true → env.deleteRefResult = .error e →
      e.status = some 422 →
      releaseLock m env =
        .ok ({ m with acquired := false },
             [Event.deleteRef m.owner m.repo m.lockRef])) ∧
    (∀ (m : GitMutex) (env : ReleaseEnv) (e : JsError),
      m.acquired = true → env.deleteRefResult = .error e →
      e.status ≠ some 422 →
      releaseLock m env =
        .ok (m, [Event.deleteRef m.owner m.repo m.lockRef])) := by
  refine ⟨?_, ?_, ?_⟩
  · intro m env
    unfold releaseLock
    cases hm : m.acquired with
    | false => rfl
    | true =>
      cases env.deleteRefResult with
      | ok u => rfl
      | error e =>
        by_cases h4 : e.status = some 422 <;> simp [h4, Except.isOk, Except.toBool]
  · intro m env e hm hd h4
    unfold releaseLock
    rw [hd]
    simp [hm, h4]
  · intro m env e hm hd h4
    unfold releaseLock
    rw [hd]
    simp [hm, h4]

/-- C7 witness: a tolerated-absent delete (422) resolves normally and
clears the flag; a 500 delete error also resolves normally, without
touching the state. -/
theorem C7_release_never_throws_witness :
    (releaseLock { sampleMutex with acquired := true }
        { deleteRefResult := .error ⟨some 422, "Reference does not exist"⟩ }).isOk
      = true ∧
    releaseLock { sampleMutex with acquired := true }
        { deleteRefResult := .error ⟨some 422, "Reference does not exist"⟩ } =
      .ok ({ sampleMutex with acquired := false },
           [Event.deleteRef sampleMutex.owner sampleMutex.repo sampleMutex.lockRef]) ∧
    releaseLock { sampleMutex with acquired := true }
        { deleteRefResult := .error ⟨some 500, "Server Error"⟩ } =
      .ok ({ sampleMutex with acquired := true },
           [Event.deleteRef sampleMutex.owner sampleMutex.repo sampleMutex.lockRef]) :=
  ⟨C7_release_never_throws.1 { sampleMutex with acquired := true }
      { deleteRefResult := .error ⟨some 422, "Reference does not exist"⟩ },
   C7_release_never_throws.2.1 { sampleMutex with acquired := true }
      { deleteRefResult := .error ⟨some 422, "Reference does not exist"⟩ }
      ⟨some 422, "Reference does not exist"⟩ rfl rfl rfl,
   C7_release_never_throws.2.2 { sampleMutex with acquired := true }
      { deleteRefResult := .error ⟨some 500, "Server Error"⟩ }
      ⟨some 500, "Server Error"⟩ rfl rfl (by decide)⟩

/-- C8: on a handle whose `acquired` flag is `false`, `releaseLock`
returns at once with the state unchanged and an empty call trace (no
store calls), whatever the store would have answered; a second call on
the same (still unacquired) handle behaves identically. -/
theorem C8_release_noop_when_unacquired (m : GitMutex)
    (env env2 : ReleaseEnv) (h : m.acquired = false) :
    releaseLock m env = .ok (m, []) ∧ releaseLock m env2 = .ok (m, []) := by
  constructor <;> · unfold releaseLock; simp [h]

/-- C8 witness: a freshly constructed (unacquired) handle released
twice, under two different store answers, makes no store call and is
unchanged both times. -/
theorem C8_release_noop_when_unacquired_witness :
    releaseLock sampleMutex { deleteRefResult := .ok () } =
      .ok (sampleMutex, []) ∧
    releaseLock sampleMutex { deleteRefResult := .error ⟨some 500, "Server Error"⟩ } =
      .ok (sampleMutex, []) :=
  C8_release_noop_when_unacquired sampleMutex
    { deleteRefResult := .ok () }
    { deleteRefResult := .error ⟨some 500, "Server Error"⟩ } rfl

/-- C9 (implicit): when the delete of `releaseLock` fails with an error
other than 422, the handle state is returned unchanged — in particular
`acquired` stays `true` — and therefore a subsequent `releaseLock` call
(under any store answer) attempts the delete again: its call trace is
again exactly the delete attempt, not the empty no-op trace. -/
theorem C9_release_error_keeps_acquired (m : GitMutex)
    (env env2 : ReleaseEnv) (e : JsError)
    (hm : m.acquired = true) (hd : env.deleteRefResult = .error e)
    (h4 : e.status ≠ some 422) :
    releaseLock m env =
      .ok (m, [Event.deleteRef m.owner m.repo m.lockRef]) ∧
    Except.map (fun p => p.2) (releaseLock m env2) =
      .ok [Event.deleteRef m.owner m.repo m.lockRef] := by
  constructor
  · unfold releaseLock
    rw [hd]
    simp [hm, h4]
  · unfold releaseLock
    cases env2.deleteRefResult with
    | ok u => simp [hm, Except.map]
    | error e2 =>
      by_cases h42 : e2.status = some 422 <;> simp [hm, h42, Except.map]

/-- C9 witness: after a 500 delete error the handle is unchanged (flag
still set), and a retry of `releaseLock` performs the delete call
again. -/
theorem C9_release_error_keeps_acquired_witness :
    releaseLock { sampleMutex with acquired := true }
        { deleteRefResult := .error ⟨some 500, "Server Error"⟩ } =
      .ok ({ sampleMutex with acquired := true },
           [Event.deleteRef sampleMutex.owner sampleMutex.repo sampleMutex.lockRef]) ∧
    Except.map (fun p => p.2)
        (releaseLock { sampleMutex with acquired := true }
          { deleteRefResult := .ok () }) =
      .ok [Event.deleteRef sampleMutex.owner sampleMutex.repo sampleMutex.lockRef] :=
  C9_release_error_keeps_acquired { sampleMutex with acquired := true }
    { deleteRefResult := .error ⟨some 500, "Server Error"⟩ }
    { deleteRefResult := .ok () }
    ⟨some 500, "Server Error"⟩ rfl rfl (by decide)

/-- C1 counterexample: an authorization failure (HTTP 403) raised by
the read performed for the expiry check does NOT propagate to the
caller and does NOT abort acquisition. In this concrete run the first
create hits a 422 conflict, the expiry-check read then fails with 403;
the loop swallows the error, sleeps the retry interval (the `sleep
1000` event) and re-checks, finally returning the normal `.ok false`
timeout outcome instead of surfacing the 403 — refuting the claim that
every non-conflict store error, including one from the expiry-check
read, propagates unchanged without a silent retry. -/
theorem C1_counterexample_clean_error_swallowed :
    acquireLockLoop sampleMutex 0 3000 1000
        [busyAuthIter,
         { loopTime := 5000
           createResult := .error ⟨some 422, "Reference already exists"⟩
           cleanEnv := authFailEnv }] =
      some { result := .ok false, acquired := false,
             events := [Event.createRef "octo" "repo" "refs/mutex/deploy" "abc123",
                        Event.getRef "octo" "repo" "mutex/deploy",
                        Event.sleep 1000] } := by
  rfl

/-- C1 (amended): an error of the `createRef` call itself whose status
is not 422 propagates to the caller unchanged, aborting the loop at
once with the flag untouched and no further store call or sleep; but a
store error other than 404 raised by the read performed for the expiry
check is swallowed by `checkAndCleanExpiredLock`, which merely reports
the lock as not cleaned, so the loop then sleeps and retries instead of
surfacing that error. -/
theorem C1_create_error_propagates :
    (∀ (m : GitMutex) (start t r : Int) (it : IterEnv)
        (rest : List IterEnv) (e : JsError),
      it.loopTime - start < t → it.createResult = .error e →
      e.status ≠ some 422 →
      acquireLockLoop m start t r (it :: rest) =
        some { result := .error e, acquired := m.acquired,
               events := [Event.createRef m.owner m.repo
                 ("refs/" ++ m.lockRef) m.lockData.sha] }) ∧
    (∀ (m : GitMutex) (env : CleanEnv) (e : JsError),
      env.getRefResult = .error e → e.status ≠ some 404 →
      checkAndCleanExpiredLock m env =
        (false, [Event.getRef m.owner m.repo m.lockRef])) := by
  constructor
  · intro m start t r it rest e hloop hcr h4
    simp [acquireLockLoop, hloop, hcr, h4]
  · intro m env e hgr h4
    unfold checkAndCleanExpiredLock
    rw [hgr]
    simp [h4]

/-- C1 (amended) witness: a 403 on the create aborts at once with the
error surfaced; a 403 on the expiry-check read is reported as merely
"not cleaned". -/
theorem C1_create_error_propagates_witness :
    acquireLockLoop sampleMutex 0 3000 1000
        [{ loopTime := 0
           createResult := .error ⟨some 403, "Resource not accessible"⟩
           cleanEnv := freshEnv }] =
      some { result := .error ⟨some 403, "Resource not accessible"⟩,
             acquired := sampleMutex.acquired,
             events := [Event.createRef sampleMutex.owner sampleMutex.repo
               ("refs/" ++ sampleMutex.lockRef) sampleMutex.lockData.sha] } ∧
    checkAndCleanExpiredLock sampleMutex authFailEnv =
      (false, [Event.getRef sampleMutex.owner sampleMutex.repo sampleMutex.lockRef]) :=
  ⟨C1_create_error_propagates.1 sampleMutex 0 3000 1000
      { loopTime := 0
        createResult := .error ⟨some 403, "Resource not accessible"⟩
        cleanEnv := freshEnv }
      [] ⟨some 403, "Resource not accessible"⟩ (by decide) rfl (by decide),
   C1_create_error_propagates.2 sampleMutex authFailEnv
      ⟨some 403, "Resource not accessible"⟩ rfl (by decide)⟩

/-- C3: a create conflict (422) against a record judged expired (read
back successfully, age over 600000 ms, delete succeeding) deletes the
record and re-enters the loop immediately: the iteration contributes
exactly the four store calls — create, the two expiry reads, the
delete — and no sleep event, the loop continuing on the very next
oracle entry. -/
theorem C3_expired_clean_then_immediate_retry (m : GitMutex)
    (start t r : Int) (it : IterEnv) (rest : List IterEnv)
    (e : JsError) (ref : RefData) (ct : Int)
    (hloop : it.loopTime - start < t)
    (hcr : it.createResult = .error e) (h422 : e.status = some 422)
    (hgr : it.cleanEnv.getRefResult = .ok ref)
    (hgc : it.cleanEnv.getCommitResult = .ok ct)
    (hexp : it.cleanEnv.now - ct > 600000)
    (hdel : it.cleanEnv.deleteRefResult = .ok ()) :
    acquireLockLoop m start t r (it :: rest) =
      prependEvents
        [Event.createRef m.owner m.repo ("refs/" ++ m.lockRef) m.lockData.sha,
         Event.getRef m.owner m.repo m.lockRef,
         Event.getCommit m.owner m.repo ref.objectSha,
         Event.deleteRef m.owner m.repo m.lockRef]
        (acquireLockLoop m start t r rest) ∧
    List.filter isSleepEvent
        [Event.createRef m.owner m.repo ("refs/" ++ m.lockRef) m.lockData.sha,
         Event.getRef m.owner m.repo m.lockRef,
         Event.getCommit m.owner m.repo ref.objectSha,
         Event.deleteRef m.owner m.repo m.lockRef] = [] :=
  ⟨acquireLockLoop_expired_step m start t r it rest e ref ct
      hloop hcr h422 hgr hgc hexp hdel, rfl⟩

/-- C3 witness: against a record 700000 ms old, the conflicting client
deletes it and its very next create attempt succeeds, with no sleep in
between. -/
theorem C3_expired_clean_then_immediate_retry_witness :
    acquireLockLoop sampleMutex 0 3000 1000 [busyExpiredIter, okIter] =
      prependEvents
        [Event.createRef sampleMutex.owner sampleMutex.repo
           ("refs/" ++ sampleMutex.lockRef) sampleMutex.lockData.sha,
         Event.getRef sampleMutex.owner sampleMutex.repo sampleMutex.lockRef,
         Event.getCommit sampleMutex.owner sampleMutex.repo "oldsha",
         Event.deleteRef sampleMutex.owner sampleMutex.repo sampleMutex.lockRef]
        (acquireLockLoop sampleMutex 0 3000 1000 [okIter]) ∧
    List.filter isSleepEvent
        [Event.createRef sampleMutex.owner sampleMutex.repo
           ("refs/" ++ sampleMutex.lockRef) sampleMutex.lockData.sha,
         Event.getRef sampleMutex.owner sampleMutex.repo sampleMutex.lockRef,
         Event.getCommit sampleMutex.owner sampleMutex.repo "oldsha",
         Event.deleteRef sampleMutex.owner sampleMutex.repo sampleMutex.lockRef] = [] :=
  C3_expired_clean_then_immediate_retry sampleMutex 0 3000 1000
    busyExpiredIter [okIter]
    ⟨some 422, "Reference already exists"⟩ ⟨"oldsha"⟩ 0
    (by decide) rfl rfl rfl rfl (by decide) rfl

/-- C10 (implicit hyperproperty): the whole observable behavior of the
expiry check and of the acquire loop — result, flag and call trace —
is unchanged when the client-local `lockData.timestamp` field is
replaced by any other value: the timestamp is never transmitted to the
store (`createRef` sends only the sha) and the expiry verdict uses only
the commit author date read back from the store. -/
theorem C10_timestamp_never_consulted :
    (∀ (m : GitMutex) (env : CleanEnv) (ts : Int),
      checkAndCleanExpiredLock
          { m with lockData := { m.lockData with timestamp := ts } } env =
        checkAndCleanExpiredLock m env) ∧
    (∀ (m : GitMutex) (start tmo r ts : Int) (envs : List IterEnv),
      acquireLockLoop { m with lockData := { m.lockData with timestamp := ts } }
          start tmo r envs =
        acquireLockLoop m start tmo r envs) := by
  constructor
  · intro m env ts
    rfl
  · intro m start tmo r ts envs
    induction envs with
    | nil => rfl
    | cons it rest ih =>
      have hc : checkAndCleanExpiredLock
          { m with lockData := { m.lockData with timestamp := ts } } it.cleanEnv =
            checkAndCleanExpiredLock m it.cleanEnv := rfl
      simp only [acquireLockLoop, ih, hc]

/-- Inversion for `prependEvents`: a defined outcome comes from a
defined tail outcome with the same result and flag and the events
prepended. -/
theorem prependEvents_eq_some (evs : List Event) (o : Option AcquireRes)
    (res : AcquireRes) (h : prependEvents evs o = some res) :
    ∃ res2, o = some res2 ∧ res.result = res2.result ∧
      res.acquired = res2.acquired ∧ res.events = evs ++ res2.events := by
  cases o with
  | none => simp [prependEvents] at h
  | some r2 =>
    simp only [prependEvents, Option.some_inj] at h
    subst h
    exact ⟨r2, rfl, rfl, rfl, rfl⟩

/-- C4: a create conflict against a record that is not expired triggers
the backoff path. First conjunct: such an iteration contributes exactly
the create attempt, the two expiry reads and a sleep of
`retryIntervalMs` before the loop re-attempts — and no delete. Second
conjunct: a whole run all of whose iterations are of this shape
performs zero deletes, returns the normal `false` outcome when it
terminates, and leaves the `acquired` flag unchanged. -/
theorem C4_not_expired_backoff_no_delete :
    (∀ (m : GitMutex) (start t r : Int) (it : IterEnv) (rest : List IterEnv)
        (e : JsError) (ref : RefData) (ct : Int),
      it.loopTime - start < t → it.createResult = .error e →
      e.status = some 422 →
      it.cleanEnv.getRefResult = .ok ref →
      it.cleanEnv.getCommitResult = .ok ct →
      ¬ it.cleanEnv.now - ct > 600000 →
      acquireLockLoop m start t r (it :: rest) =
        prependEvents
          [Event.createRef m.owner m.repo ("refs/" ++ m.lockRef) m.lockData.sha,
           Event.getRef m.owner m.repo m.lockRef,
           Event.getCommit m.owner m.repo ref.objectSha,
           Event.sleep r]
          (acquireLockLoop m start t r rest)) ∧
    (∀ (m : GitMutex) (start t r : Int) (envs : List IterEnv) (res : AcquireRes),
      envs.all isBusyNotExpired = true →
      acquireLockLoop m start t r envs = some res →
      res.result = .ok false ∧ res.acquired = m.acquired ∧
        List.filter isDeleteEvent res.events = []) := by
  constructor
  · exact acquireLockLoop_busy_step
  · intro m start t r envs
    induction envs with
    | nil =>
      intro res hall hres
      simp [acquireLockLoop] at hres
    | cons it rest ih =>
      intro res hall hres
      rw [List.all_cons, Bool.and_eq_true] at hall
      obtain ⟨hhead, htail⟩ := hall
      by_cases hloop : it.loopTime - start < t
      · cases hcrm : it.createResult with
        | ok u =>
          simp [isBusyNotExpired, hcrm] at hhead
        | error e =>
          cases hgrm : it.cleanEnv.getRefResult with
          | error e2 =>
            simp [isBusyNotExpired, hcrm, hgrm] at hhead
          | ok ref =>
            cases hgcm : it.cleanEnv.getCommitResult with
            | error e3 =>
              simp [isBusyNotExpired, hcrm, hgrm, hgcm] at hhead
            | ok ct =>
              simp [isBusyNotExpired, hcrm, hgrm, hgcm] at hhead
              obtain ⟨h422, hle⟩ := hhead
              rw [acquireLockLoop_busy_step m start t r it rest e ref ct
                hloop hcrm h422 hgrm hgcm (by omega)] at hres
              obtain ⟨res2, hrest, hresult, hacq, hevs⟩ :=
                prependEvents_eq_some _ _ _ hres
              obtain ⟨h1, h2, h3⟩ := ih res2 htail hrest
              refine ⟨hresult.trans h1, hacq.trans h2, ?_⟩
              rw [hevs, List.filter_append, h3]
              simp [isDeleteEvent]
      · simp only [acquireLockLoop, if_neg hloop, Option.some_inj] at hres
        subst hres
        exact ⟨rfl, rfl, rfl⟩

/-- C4 witness: two conflict rounds against a 60000 ms old record: the
first sleeps the 1000 ms retry interval, the second finds the 3000 ms
timeout elapsed; the run returns `false`, never deletes, and leaves the
flag `false`. -/
theorem C4_not_expired_backoff_no_delete_witness :
    acquireLockLoop sampleMutex 0 3000 1000
        [busyFreshIter,
         { loopTime := 3000
           createResult := .error ⟨some 422, "Reference already exists"⟩
           cleanEnv := freshEnv }] =
      prependEvents
        [Event.createRef sampleMutex.owner sampleMutex.repo
           ("refs/" ++ sampleMutex.lockRef) sampleMutex.lockData.sha,
         Event.getRef sampleMutex.owner sampleMutex.repo sampleMutex.lockRef,
         Event.getCommit sampleMutex.owner sampleMutex.repo "cursha",
         Event.sleep 1000]
        (acquireLockLoop sampleMutex 0 3000 1000
          [{ loopTime := 3000
             createResult := .error ⟨some 422, "Reference already exists"⟩
             cleanEnv := freshEnv }]) ∧
    (({ result := .ok false, acquired := false,
        events := [Event.createRef "octo" "repo" "refs/mutex/deploy" "abc123",
                   Event.getRef "octo" "repo" "mutex/deploy",
                   Event.getCommit "octo" "repo" "cursha",
                   Event.sleep 1000] } : AcquireRes).result = .ok false ∧
     ({ result := .ok false, acquired := false,
        events := [Event.createRef "octo" "repo" "refs/mutex/deploy" "abc123",
                   Event.getRef "octo" "repo" "mutex/deploy",
                   Event.getCommit "octo" "repo" "cursha",
                   Event.sleep 1000] } : AcquireRes).acquired = sampleMutex.acquired ∧
     List.filter isDeleteEvent
        ({ result := .ok false, acquired := false,
           events := [Event.createRef "octo" "repo" "refs/mutex/deploy" "abc123",
                      Event.getRef "octo" "repo" "mutex/deploy",
                      Event.getCommit "octo" "repo" "cursha",
                      Event.sleep 1000] } : AcquireRes).events = []) :=
  ⟨C4_not_expired_backoff_no_delete.1 sampleMutex 0 3000 1000
      busyFreshIter
      [{ loopTime := 3000
         createResult := .error ⟨some 422, "Reference already exists"⟩
         cleanEnv := freshEnv }]
      ⟨some 422, "Reference already exists"⟩ ⟨"cursha"⟩ 0
      (by decide) rfl rfl rfl rfl (by decide),
   C4_not_expired_backoff_no_delete.2 sampleMutex 0 3000 1000
      [busyFreshIter,
       { loopTime := 3000
         createResult := .error ⟨some 422, "Reference already exists"⟩
         cleanEnv := freshEnv }]
      { result := .ok false, acquired := false,
        events := [Event.createRef "octo" "repo" "refs/mutex/deploy" "abc123",
                   Event.getRef "octo" "repo" "mutex/deploy",
                   Event.getCommit "octo" "repo" "cursha",
                   Event.sleep 1000] }
      rfl rfl⟩

/-- C5: the life of the `acquired` flag. A freshly constructed handle
starts with the flag `false`; an `acquireLock` run sets it to `true`
exactly when it returns `true` from a successful create, every other
outcome (timeout or thrown create error) leaving it as it was; and
after `releaseLock` the flag is `false` precisely when it already was,
or the delete succeeded, or the delete was tolerated as absent (422) —
any other delete error leaves it untouched. The expiry check
(`checkAndCleanExpiredLock`) returns no state at all, matching the
source, which never assigns the flag there. -/
theorem C5_acquired_flag_transitions :
    (∀ (owner repo lockKey : String) (envRunId envJob envSha : Option String)
        (now : Int),
      (GitMutex.init owner repo lockKey envRunId envJob envSha now).acquired
        = false) ∧
    (∀ (m : GitMutex) (start t r : Int) (envs : List IterEnv)
        (res : AcquireRes),
      acquireLockLoop m start t r envs = some res →
      (res.result = .ok true → res.acquired = true) ∧
      (res.result ≠ .ok true → res.acquired = m.acquired)) ∧
    (∀ (m : GitMutex) (env : ReleaseEnv) (p : GitMutex × List Event),
      releaseLock m env = .ok p →
      (p.1.acquired = false ↔
        (m.acquired = false ∨ env.deleteRefResult = .ok () ∨
          ∃ e, env.deleteRefResult = .error e ∧ e.status = some 422))) := by
  refine ⟨fun _ _ _ _ _ _ _ => rfl, ?_, ?_⟩
  · intro m start t r envs
    induction envs with
    | nil =>
      intro res hres
      simp [acquireLockLoop] at hres
    | cons it rest ih =>
      intro res hres
      by_cases hloop : it.loopTime - start < t
      · cases hcrm : it.createResult with
        | ok u =>
          simp only [acquireLockLoop, if_pos hloop, hcrm,
            Option.some_inj] at hres
          subst hres
          exact ⟨fun _ => rfl, fun h => absurd rfl h⟩
        | error e =>
          by_cases h422 : e.status = some 422
          · simp only [acquireLockLoop, if_pos hloop, hcrm, h422,
              if_pos rfl, if_true] at hres
            by_cases hcl : (checkAndCleanExpiredLock m it.cleanEnv).1 = true
            · rw [if_pos hcl] at hres
              obtain ⟨res2, hrest, hresult, hacq, -⟩ :=
                prependEvents_eq_some _ _ _ hres
              obtain ⟨h1, h2⟩ := ih res2 hrest
              rw [hresult, hacq]
              exact ⟨h1, h2⟩
            · rw [if_neg hcl] at hres
              obtain ⟨res2, hrest, hresult, hacq, -⟩ :=
                prependEvents_eq_some _ _ _ hres
              obtain ⟨h1, h2⟩ := ih res2 hrest
              rw [hresult, hacq]
              exact ⟨h1, h2⟩
          · simp only [acquireLockLoop, if_pos hloop, hcrm, h422,
              if_neg h422, if_false, Option.some_inj] at hres
            subst hres
            refine ⟨fun h => ?_, fun _ => rfl⟩
            exact absurd h (by simp)
      · simp only [acquireLockLoop, if_neg hloop, Option.some_inj] at hres
        subst hres
        refine ⟨fun h => ?_, fun _ => rfl⟩
        exact absurd h (by simp)
  · intro m env p hrel
    unfold releaseLock at hrel
    cases hm : m.acquired with
    | false =>
      rw [hm] at hrel
      simp at hrel
      subst hrel
      simp [hm]
    | true =>
      rw [hm] at hrel
      cases hd : env.deleteRefResult with
      | ok u =>
        cases u
        rw [hd] at hrel
        simp at hrel
        subst hrel
        simp
      | error e =>
        rw [hd] at hrel
        by_cases h4 : e.status = some 422
        · simp [h4] at hrel
          subst hrel
          simp [h4]
        · simp [h4] at hrel
          subst hrel
          simp [h4, hm]

/-- C5 witness: a fresh handle starts unacquired; a run whose create
succeeds ends acquired; a successful delete ends unacquired. -/
theorem C5_acquired_flag_transitions_witness :
    (GitMutex.init "octo" "repo" "deploy" (some "run42") (some "build")
        (some "abc123") 1000).acquired = false ∧
    ({ result := .ok true, acquired := true,
       events := [Event.createRef "octo" "repo" "refs/mutex/deploy" "abc123"]
     } : AcquireRes).acquired = true ∧
    (({ sampleMutex with acquired := false } : GitMutex),
      ([Event.deleteRef "octo" "repo" "mutex/deploy"] : List Event)).1.acquired
      = false :=
  ⟨C5_acquired_flag_transitions.1 "octo" "repo" "deploy" (some "run42")
      (some "build") (some "abc123") 1000,
   (C5_acquired_flag_transitions.2.1 sampleMutex 0 3000 1000 [okIter]
      { result := .ok true, acquired := true,
        events := [Event.createRef "octo" "repo" "refs/mutex/deploy" "abc123"] }
      rfl).1 rfl,
   (C5_acquired_flag_transitions.2.2 { sampleMutex with acquired := true }
      { deleteRefResult := .ok () }
      ({ sampleMutex with acquired := false },
       [Event.deleteRef "octo" "repo" "mutex/deploy"])
      rfl).mpr (Or.inr (Or.inl rfl))⟩

end GitMutexSpec
